import Mathlib

/-!
Shallow embedding of the Kalina storefront bot (src/bot.py): the catalog
and order data store (`DataStorage`), the admin set (`AdminManager`), and
the workflow handlers that the specification claims refer to.  Python
dictionaries are modelled as association lists with first-match lookup,
in-place update on existing keys and append on new keys, which reproduces
insertion-ordered dict semantics.  Python floats are modelled by `PyFloat`
(a rational together with the special values nan, inf and -inf), and the
dynamically typed values stored in the per-conversation FSM context and in
the settings singletons by `CVal`.
-/

namespace Kalina

/-- Model of a Python float value: a finite rational or one of the special
values produced by float parsing.  Rounding of decimal literals to binary
is not modelled; the claims under study never depend on it. -/
inductive PyFloat where
  | finite (q : ℚ)
  | nan
  | inf
  | ninf
deriving DecidableEq, Repr

/-- Python comparison `x <= y` on floats: any comparison involving nan is
false; -inf is below everything else; +inf is above everything else. -/
def pyLe : PyFloat → PyFloat → Bool
  | .nan, _ => false
  | _, .nan => false
  | .ninf, _ => true
  | _, .ninf => false
  | _, .inf => true
  | .inf, _ => false
  | .finite a, .finite b => decide (a ≤ b)

/-- Dynamically typed value as stored in a conversation FSM context
(`state.update_data` key-value pairs) or assigned by `setattr`. -/
inductive CVal where
  | vnat (n : ℕ)
  | vstr (s : String)
  | vbool (b : Bool)
  | vfloat (f : PyFloat)
  | vstrs (l : List String)
  | vfloats (l : List PyFloat)
deriving DecidableEq, Repr

/-- First entry of an association list with the given key, mirroring
Python dict lookup. -/
def dget? {κ α : Type} [DecidableEq κ] (d : List (κ × α)) (k : κ) : Option α :=
  match d.find? (fun p => p.1 = k) with
  | some p => some p.2
  | none => none

/-- Python `k in d` membership test. -/
def dmem {κ α : Type} [DecidableEq κ] (d : List (κ × α)) (k : κ) : Bool :=
  d.any (fun p => p.1 = k)

/-- Python `d[k] = v`: overwrite in place when the key exists, append
otherwise (insertion-ordered dict). -/
def dinsert {κ α : Type} [DecidableEq κ] (d : List (κ × α)) (k : κ) (v : α) :
    List (κ × α) :=
  if dmem d k then d.map (fun p => if p.1 = k then (k, v) else p)
  else d ++ [(k, v)]

/-- Python `del d[k]`: drop every entry with the given key. -/
def derase {κ α : Type} [DecidableEq κ] (d : List (κ × α)) (k : κ) : List (κ × α) :=
  d.filter (fun p => ¬ p.1 = k)

/-- Python `d.values()`. -/
def dvalues {κ α : Type} (d : List (κ × α)) : List α := d.map (·.2)

/-- Python `d[k].f = v` style in-place mutation of the value at a key. -/
def dmodify {κ α : Type} [DecidableEq κ] (d : List (κ × α)) (k : κ) (f : α → α) :
    List (κ × α) :=
  d.map (fun p => if p.1 = k then (p.1, f p.2) else p)

/-- Product dataclass from src/bot.py. -/
structure Product where
  id : ℕ
  name : String
  description : String
  price : PyFloat
  category_id : Option ℕ := none
  city_id : Option ℕ := none
  photo_url : Option String := none
  is_active : Bool := true
deriving DecidableEq, Repr

/-- Category dataclass from src/bot.py. -/
structure Category where
  id : ℕ
  name : String
  city_id : ℕ
  is_active : Bool := true
deriving DecidableEq, Repr

/-- City dataclass from src/bot.py. -/
structure City where
  id : ℕ
  name : String
  order : ℕ := 999
  is_active : Bool := true
deriving DecidableEq, Repr

/-- Order dataclass from src/bot.py.  `payment_method` is an optional
string because the call site passes `user_data.get('payment_method')`,
which may be absent at runtime. -/
structure Order where
  id : ℕ
  user_id : ℕ
  username : String
  product_id : ℕ
  product_name : String
  price : PyFloat
  payment_method : Option String
  payment_proof : String
  status : String := "pending"
  timestamp : String := ""
deriving DecidableEq, Repr

/-- User record appended by `add_user` and iterated by the broadcast. -/
structure UserRec where
  id : ℕ
  username : String
  date : String
deriving DecidableEq, Repr

/-- PaymentDetails dataclass.  Fields hold `CVal` because
`update_payment_details` assigns arbitrary keyword values via `setattr`. -/
structure PaymentDetails where
  card_number : CVal := .vstr "2200 1234 5678 9012"
  card_holder : CVal := .vstr "Иван Иванов"
  crypto_wallet : CVal := .vstr "TXYZ1234567890abcdef"
  crypto_network : CVal := .vstr "TRC20 (TRON)"
  crypto_coin : CVal := .vstr "USDT"
deriving DecidableEq, Repr

/-- OperatorSettings dataclass, `CVal`-valued for the same reason. -/
structure OperatorSettings where
  operator_link : CVal := .vstr "https://t.me/operator_bot"
  operator_enabled : CVal := .vbool false
  operator_button_text : CVal := .vstr "👨‍💼 Связаться с оператором"
deriving DecidableEq, Repr

/-- In-memory state of `DataStorage`: the entity collections keyed by id,
the user list, the two settings singletons and the four next-id counters.
File persistence (`save_data` and friends) has no effect on this state and
is omitted. -/
structure DataStorage where
  products : List (ℕ × Product) := []
  categories : List (ℕ × Category) := []
  cities : List (ℕ × City) := []
  orders : List (ℕ × Order) := []
  users : List UserRec := []
  payment_details : PaymentDetails := {}
  operator_settings : OperatorSettings := {}
  next_product_id : ℕ := 1
  next_category_id : ℕ := 1
  next_city_id : ℕ := 1
  next_order_id : ℕ := 1
deriving DecidableEq, Repr

/-- `DataStorage.add_product`: assign the next product id, insert, bump
the counter, return the id. -/
def add_product (st : DataStorage) (product : Product) : DataStorage × ℕ :=
  let pid := st.next_product_id
  let p := { product with id := pid }
  ({ st with products := dinsert st.products pid p,
             next_product_id := pid + 1 }, pid)

/-- `DataStorage.add_category`. -/
def add_category (st : DataStorage) (category : Category) : DataStorage × ℕ :=
  let cid := st.next_category_id
  let c := { category with id := cid }
  ({ st with categories := dinsert st.categories cid c,
             next_category_id := cid + 1 }, cid)

/-- `DataStorage.add_city`. -/
def add_city (st : DataStorage) (city : City) : DataStorage × ℕ :=
  let cid := st.next_city_id
  let c := { city with id := cid }
  ({ st with cities := dinsert st.cities cid c,
             next_city_id := cid + 1 }, cid)

/-- `DataStorage.add_order`. -/
def add_order (st : DataStorage) (order : Order) : DataStorage × ℕ :=
  let oid := st.next_order_id
  let o := { order with id := oid }
  ({ st with orders := dinsert st.orders oid o,
             next_order_id := oid + 1 }, oid)

/-- `max([...ids...] + [0]) + 1`, the next-id recomputation performed in
`DataStorage.__init__` after loading a persisted collection. -/
def recomputeNextId (ids : List ℕ) : ℕ := ids.foldl max 0 + 1

/-- Attribute keys of the settings dataclass instances on which `hasattr`
is true but `setattr` raises for every value shape the bot handles:
assigning `__class__` a non-class value or `__dict__` a non-dict value
raises TypeError, and the `__weakref__` descriptor is read-only
(AttributeError).  Inside the single try of the two update methods such
a raise aborts the remaining keys of the patch. -/
def raisingAttrKeys : List String := ["__class__", "__dict__", "__weakref__"]

/-- Effect on the singleton of one non-raising iteration of
`if hasattr(self.payment_details, key): setattr(self.payment_details, key, value)`:
a key naming one of the five declared fields assigns it; every other key
leaves the fields unchanged — either `hasattr` is false and the pair is
skipped, or the key names an inherited attribute on which `setattr`
succeeds (a method name such as __init__) and only creates an
instance-dict shadow that no reader of the singleton ever observes. -/
def setPaymentAttr (pd : PaymentDetails) (key : String) (v : CVal) : PaymentDetails :=
  if key = "card_number" then { pd with card_number := v }
  else if key = "card_holder" then { pd with card_holder := v }
  else if key = "crypto_wallet" then { pd with crypto_wallet := v }
  else if key = "crypto_network" then { pd with crypto_network := v }
  else if key = "crypto_coin" then { pd with crypto_coin := v }
  else pd

/-- `DataStorage.update_payment_details(**kwargs)` (bot.py 324-331): the
key loop and the save run inside one try, so the patch is applied in
order until a key raises in `setattr` (see `raisingAttrKeys`); such a key
aborts the remaining keys, keeping the assignments already made in place
on the mutated singleton (the except block only logs). -/
def update_payment_details (pd : PaymentDetails) :
    List (String × CVal) → PaymentDetails
  | [] => pd
  | (k, v) :: rest =>
      if k ∈ raisingAttrKeys then pd
      else update_payment_details (setPaymentAttr pd k v) rest

/-- Effect on the singleton of one non-raising iteration of the
`hasattr`-guarded `setattr` in `update_operator_settings`, with the same
case collapse as `setPaymentAttr`. -/
def setOperatorAttr (os : OperatorSettings) (key : String) (v : CVal) :
    OperatorSettings :=
  if key = "operator_link" then { os with operator_link := v }
  else if key = "operator_enabled" then { os with operator_enabled := v }
  else if key = "operator_button_text" then { os with operator_button_text := v }
  else os

/-- `DataStorage.update_operator_settings(**kwargs)` (bot.py 333-340),
with the same single-try abort semantics as `update_payment_details`. -/
def update_operator_settings (os : OperatorSettings) :
    List (String × CVal) → OperatorSettings
  | [] => os
  | (k, v) :: rest =>
      if k ∈ raisingAttrKeys then os
      else update_operator_settings (setOperatorAttr os k v) rest

/-- `DataStorage.bulk_update_city_orders`: walk the mapping, setting the
order field of every city id that is present; unknown ids are skipped and
the call still returns True. -/
def bulk_update_city_orders (st : DataStorage) (order_mapping : List (ℕ × ℕ)) :
    DataStorage × Bool :=
  (order_mapping.foldl
    (fun acc p =>
      if dmem acc.cities p.1 then
        { acc with cities := dmodify acc.cities p.1 (fun c => { c with order := p.2 }) }
      else acc)
    st, true)

/-- `DataStorage.delete_product`: remove the product if present. -/
def delete_product (st : DataStorage) (product_id : ℕ) : DataStorage × Bool :=
  if dmem st.products product_id then
    ({ st with products := derase st.products product_id }, true)
  else (st, false)

/-- `DataStorage.delete_category`: remove the category, then delete every
product whose category_id equals it. -/
def delete_category (st : DataStorage) (category_id : ℕ) : DataStorage × Bool :=
  if dmem st.categories category_id then
    let st1 := { st with categories := derase st.categories category_id }
    let products_to_delete :=
      (st1.products.filter (fun p => p.2.category_id = some category_id)).map (·.1)
    (products_to_delete.foldl (fun acc pid => (delete_product acc pid).1) st1, true)
  else (st, false)

/-- `DataStorage.delete_city`: remove the city, then delete every category
whose city_id equals it (each cascading to its products).  Note: products
attached directly to the city (city_id set, category_id None) are not
touched by this function. -/
def delete_city (st : DataStorage) (city_id : ℕ) : DataStorage × Bool :=
  if dmem st.cities city_id then
    let st1 := { st with cities := derase st.cities city_id }
    let categories_to_delete :=
      (st1.categories.filter (fun c => c.2.city_id = city_id)).map (·.1)
    (categories_to_delete.foldl (fun acc cid => (delete_category acc cid).1) st1, true)
  else (st, false)

/-- `AdminManager.is_admin`. -/
def is_admin (admins : Finset ℕ) (user_id : ℕ) : Bool := decide (user_id ∈ admins)

/-- `AdminManager.add_admin`. -/
def add_admin (admins : Finset ℕ) (user_id requester_id : ℕ) : Finset ℕ × Bool :=
  if is_admin admins requester_id = false then (admins, false)
  else (insert user_id admins, true)

/-- `AdminManager.remove_admin`: fails when the requester is not an admin,
when the target equals the requester, or when the target is not present. -/
def remove_admin (admins : Finset ℕ) (user_id requester_id : ℕ) : Finset ℕ × Bool :=
  if is_admin admins requester_id = false then (admins, false)
  else if user_id = requester_id then (admins, false)
  else if user_id ∈ admins then (admins.erase user_id, true)
  else (admins, false)

/-- Characters stripped by Python `str.strip()` and by `float()`. -/
def isPySpace (c : Char) : Bool :=
  c == ' ' || c == '\t' || c == '\n' || c == '\r' ||
  c == Char.ofNat 11 || c == Char.ofNat 12

/-- Python `str.strip()`. -/
def pyStrip (s : String) : String :=
  ⟨((s.data.dropWhile isPySpace).reverse.dropWhile isPySpace).reverse⟩

/-- Python `str.lower()` restricted to ASCII letters and the Cyrillic
range actually used by the bot (enough for the literal sentinel "нет"). -/
def pyLowerChar (c : Char) : Char :=
  if 'А' ≤ c ∧ c ≤ 'Я' then Char.ofNat (c.toNat + 32)
  else if c = 'Ё' then 'ё'
  else c.toLower

/-- Python `str.lower()` on a whole string. -/
def pyLower (s : String) : String := ⟨s.data.map pyLowerChar⟩

/-- Split a character list at commas; the empty input yields one empty
group, as Python `"".split(',') == ['']`. -/
def splitCommaChars : List Char → List (List Char)
  | [] => [[]]
  | c :: rest =>
      let r := splitCommaChars rest
      if c = ',' then [] :: r
      else
        match r with
        | [] => [[c]]
        | g :: gs => (c :: g) :: gs

/-- Python `s.split(',')`. -/
def pySplitComma (s : String) : List String :=
  (splitCommaChars s.data).map (fun l => ⟨l⟩)

/-- `[x.strip() for x in s.split(',') if x.strip()]`, the comma-list
tokenisation used by the bulk-add and city-reorder handlers. -/
def splitTrim (s : String) : List String :=
  ((pySplitComma s).map pyStrip).filter (fun x => ¬ x = "")

/-- Decimal digit test. -/
def isDig (c : Char) : Bool := '0' ≤ c && c ≤ '9'

/-- Value of a digit string, most significant first. -/
def natOfDigits (l : List Char) : ℕ :=
  l.foldl (fun a c => 10 * a + (c.toNat - '0'.toNat)) 0

/-- Mantissa of a float literal: `digits [. digits]` with at least one
digit overall. -/
def parseMantissa (l : List Char) : Option ℚ :=
  let intPart := l.takeWhile isDig
  let rest := l.dropWhile isDig
  match rest with
  | [] => if intPart = [] then none else some (natOfDigits intPart)
  | '.' :: frac =>
      if frac.all isDig ∧ (intPart ≠ [] ∨ frac ≠ []) then
        some ((natOfDigits intPart : ℚ) +
          (natOfDigits frac : ℚ) / (10 : ℚ) ^ frac.length)
      else none
  | _ => none

/-- Leading sign of a float or int literal. -/
def splitSign : List Char → Bool × List Char
  | '-' :: r => (true, r)
  | '+' :: r => (false, r)
  | l => (false, l)

/-- Python `float(s)` on a stripped character list: special forms inf,
infinity and nan (case-insensitive, optionally signed), else an optionally
signed decimal literal with optional fraction and exponent.  Digit-group
underscores and overflow to infinity are not modelled; no claim depends on
them. -/
def parseFloatChars (l : List Char) : Option PyFloat :=
  let s := splitSign l
  let low := s.2.map pyLowerChar
  if low = "inf".data ∨ low = "infinity".data then
    some (if s.1 then .ninf else .inf)
  else if low = "nan".data then some .nan
  else
    let mant := s.2.takeWhile (fun c => ¬ (c = 'e' ∨ c = 'E'))
    let rest := s.2.dropWhile (fun c => ¬ (c = 'e' ∨ c = 'E'))
    match rest with
    | [] =>
        (parseMantissa mant).map (fun q => .finite (if s.1 then -q else q))
    | _ :: etail =>
        let es := splitSign etail
        if es.2 ≠ [] ∧ es.2.all isDig then
          (parseMantissa mant).map (fun q =>
            let e : ℤ := if es.1 then -(natOfDigits es.2 : ℤ) else (natOfDigits es.2 : ℤ)
            .finite ((if s.1 then -q else q) * (10 : ℚ) ^ e))
        else none

/-- Python `float(s)` including the whitespace stripping it performs. -/
def pyFloat (s : String) : Option PyFloat :=
  parseFloatChars ((s.data.dropWhile isPySpace).reverse.dropWhile isPySpace).reverse

/-- The aiogram FSM states declared in `UserState(StatesGroup)`. -/
inductive UserState where
  | waiting_for_payment_proof
  | waiting_for_city_name
  | waiting_for_category_name
  | waiting_for_product_name
  | waiting_for_product_description
  | waiting_for_product_price
  | waiting_for_product_category
  | waiting_for_product_photo
  | waiting_for_broadcast_message
  | waiting_for_new_admin_id
  | waiting_for_remove_admin_id
  | waiting_for_delete_city
  | waiting_for_delete_category
  | waiting_for_delete_product
  | waiting_for_card_number
  | waiting_for_card_holder
  | waiting_for_crypto_wallet
  | waiting_for_crypto_network
  | waiting_for_crypto_coin
  | waiting_for_multiple_products_category
  | waiting_for_multiple_products_data
  | waiting_for_multiple_products_descriptions
  | waiting_for_multiple_products_prices
  | waiting_for_multiple_products_photos
  | waiting_for_operator_link
  | waiting_for_operator_button_text
  | waiting_for_city_order
  | waiting_for_city_for_direct_product
  | waiting_for_product_name_direct
  | waiting_for_product_description_direct
  | waiting_for_product_price_direct
  | waiting_for_product_photo_direct
deriving DecidableEq, Repr

/-- Per-conversation FSM context: the key-value scratch pad written by
`state.update_data` and read by `state.get_data`. -/
abbrev Ctx := List (String × CVal)

/-- `state.update_data(k=v)`. -/
def ctxSet (ctx : Ctx) (k : String) (v : CVal) : Ctx := dinsert ctx k v

/-- `user_data.get(k)`. -/
def ctxGet? (ctx : Ctx) (k : String) : Option CVal := dget? ctx k

/-- `user_data.get(k)` expected to hold an int. -/
def ctxNat? (ctx : Ctx) (k : String) : Option ℕ :=
  match ctxGet? ctx k with
  | some (.vnat n) => some n
  | _ => none

/-- `user_data.get(k)` expected to hold a string. -/
def ctxStr? (ctx : Ctx) (k : String) : Option String :=
  match ctxGet? ctx k with
  | some (.vstr s) => some s
  | _ => none

/-- `user_data.get(k)` expected to hold a float. -/
def ctxFloat? (ctx : Ctx) (k : String) : Option PyFloat :=
  match ctxGet? ctx k with
  | some (.vfloat f) => some f
  | _ => none

/-- `user_data.get(k, [])` for a list of strings. -/
def ctxStrs (ctx : Ctx) (k : String) : List String :=
  match ctxGet? ctx k with
  | some (.vstrs l) => l
  | _ => []

/-- `user_data.get(k, [])` for a list of floats. -/
def ctxFloats (ctx : Ctx) (k : String) : List PyFloat :=
  match ctxGet? ctx k with
  | some (.vfloats l) => l
  | _ => []

/-- Inbound message as the handlers see it: optional text, optional photo
file id (the largest size), optional document file id. -/
structure Msg where
  text : Option String := none
  photo : Option String := none
  document : Option String := none
deriving DecidableEq, Repr

/-- Observable effect of a message handler on one conversation: the store
after the call, the FSM state it leaves (`none` models `state.clear()`,
which also empties the context) and the context it leaves. -/
structure HStep where
  store : DataStorage
  state : Option UserState
  ctx : Ctx
deriving DecidableEq, Repr

/-- Handler `admin_add_product_price` (category flow, state
waiting_for_product_price): `float(message.text)`; a parse failure or a
value failing the `price <= 0` check re-prompts with state and context
unchanged; otherwise the price is stored and the flow advances to the
photo step.  A message without text raises an uncaught TypeError, leaving
state and context unchanged. -/
def admin_add_product_price (admins : Finset ℕ) (uid : ℕ) (st : DataStorage)
    (ctx : Ctx) (msg : Msg) : HStep :=
  if is_admin admins uid = false then ⟨st, none, []⟩
  else
    match msg.text with
    | none => ⟨st, some .waiting_for_product_price, ctx⟩
    | some t =>
        match pyFloat t with
        | none => ⟨st, some .waiting_for_product_price, ctx⟩
        | some price =>
            if pyLe price (.finite 0) then ⟨st, some .waiting_for_product_price, ctx⟩
            else ⟨st, some .waiting_for_product_photo,
                   ctxSet ctx "product_price" (.vfloat price)⟩

/-- Handler `admin_add_product_to_city_price` (direct-to-city flow, state
waiting_for_product_price_direct), same validation as the category flow. -/
def admin_add_product_to_city_price (admins : Finset ℕ) (uid : ℕ)
    (st : DataStorage) (ctx : Ctx) (msg : Msg) : HStep :=
  if is_admin admins uid = false then ⟨st, none, []⟩
  else
    match msg.text with
    | none => ⟨st, some .waiting_for_product_price_direct, ctx⟩
    | some t =>
        match pyFloat t with
        | none => ⟨st, some .waiting_for_product_price_direct, ctx⟩
        | some price =>
            if pyLe price (.finite 0) then
              ⟨st, some .waiting_for_product_price_direct, ctx⟩
            else ⟨st, some .waiting_for_product_photo_direct,
                   ctxSet ctx "direct_product_price" (.vfloat price)⟩

/-- Photo-step input classification shared by the product finish handlers:
a photo wins; otherwise non-empty text other than the sentinel "нет"
re-prompts; otherwise the photo is skipped. -/
inductive PhotoInput where
  | use (file_id : String)
  | reject
  | skip
deriving DecidableEq, Repr

/-- `if message.photo: ... elif message.text and message.text.lower() != 'нет': ...`. -/
def classifyPhoto (msg : Msg) : PhotoInput :=
  match msg.photo with
  | some f => .use f
  | none =>
      match msg.text with
      | some t => if t ≠ "" ∧ pyLower t ≠ "нет" then .reject else .skip
      | none => .skip

/-- Handler `admin_add_product_finish` (category flow, state
waiting_for_product_photo): commit the drafted product with the drafted
category id and no city id.  Draft keys absent from the context (never the
case in the real flow) are modelled as empty string and zero price. -/
def admin_add_product_finish (admins : Finset ℕ) (uid : ℕ) (st : DataStorage)
    (ctx : Ctx) (msg : Msg) : HStep :=
  if is_admin admins uid = false then ⟨st, none, []⟩
  else
    match classifyPhoto msg with
    | .reject => ⟨st, some .waiting_for_product_photo, ctx⟩
    | .use f =>
        ⟨(add_product st
            { id := 0, name := (ctxStr? ctx "product_name").getD "",
              description := (ctxStr? ctx "product_description").getD "",
              price := (ctxFloat? ctx "product_price").getD (.finite 0),
              category_id := ctxNat? ctx "product_category_id",
              photo_url := some f }).1, none, []⟩
    | .skip =>
        ⟨(add_product st
            { id := 0, name := (ctxStr? ctx "product_name").getD "",
              description := (ctxStr? ctx "product_description").getD "",
              price := (ctxFloat? ctx "product_price").getD (.finite 0),
              category_id := ctxNat? ctx "product_category_id",
              photo_url := none }).1, none, []⟩

/-- Handler `admin_add_product_to_city_finish` (state
waiting_for_product_photo_direct): checks the drafted city still exists,
then commits the product with city_id set and category_id None. -/
def admin_add_product_to_city_finish (admins : Finset ℕ) (uid : ℕ)
    (st : DataStorage) (ctx : Ctx) (msg : Msg) : HStep :=
  if is_admin admins uid = false then ⟨st, none, []⟩
  else
    match classifyPhoto msg with
    | .reject => ⟨st, some .waiting_for_product_photo_direct, ctx⟩
    | .use f =>
        match ctxNat? ctx "direct_city_id" with
        | none => ⟨st, none, []⟩
        | some city_id =>
            match dget? st.cities city_id with
            | none => ⟨st, none, []⟩
            | some _ =>
                ⟨(add_product st
                    { id := 0, name := (ctxStr? ctx "direct_product_name").getD "",
                      description := (ctxStr? ctx "direct_product_description").getD "",
                      price := (ctxFloat? ctx "direct_product_price").getD (.finite 0),
                      category_id := none, city_id := some city_id,
                      photo_url := some f }).1, none, []⟩
    | .skip =>
        match ctxNat? ctx "direct_city_id" with
        | none => ⟨st, none, []⟩
        | some city_id =>
            match dget? st.cities city_id with
            | none => ⟨st, none, []⟩
            | some _ =>
                ⟨(add_product st
                    { id := 0, name := (ctxStr? ctx "direct_product_name").getD "",
                      description := (ctxStr? ctx "direct_product_description").getD "",
                      price := (ctxFloat? ctx "direct_product_price").getD (.finite 0),
                      category_id := none, city_id := some city_id,
                      photo_url := none }).1, none, []⟩

/-- Handler `admin_add_multiple_products_names` (state
waiting_for_multiple_products_data): tokenise the comma-separated name
list; an empty list re-prompts, otherwise the names are stored and the
flow advances to the descriptions step. -/
def admin_add_multiple_products_names (admins : Finset ℕ) (uid : ℕ)
    (st : DataStorage) (ctx : Ctx) (msg : Msg) : HStep :=
  if is_admin admins uid = false then ⟨st, none, []⟩
  else
    match msg.text with
    | none => ⟨st, some .waiting_for_multiple_products_data, ctx⟩
    | some t =>
        let product_names := splitTrim t
        if product_names = [] then ⟨st, some .waiting_for_multiple_products_data, ctx⟩
        else ⟨st, some .waiting_for_multiple_products_descriptions,
               ctxSet ctx "product_names" (.vstrs product_names)⟩

/-- Handler `admin_add_multiple_products_descriptions` (state
waiting_for_multiple_products_descriptions): the description count must
equal the stored name count, else the handler re-prompts with state and
context unchanged. -/
def admin_add_multiple_products_descriptions (admins : Finset ℕ) (uid : ℕ)
    (st : DataStorage) (ctx : Ctx) (msg : Msg) : HStep :=
  if is_admin admins uid = false then ⟨st, none, []⟩
  else
    match msg.text with
    | none => ⟨st, some .waiting_for_multiple_products_descriptions, ctx⟩
    | some t =>
        let product_names := ctxStrs ctx "product_names"
        let descriptions := splitTrim t
        if descriptions.length ≠ product_names.length then
          ⟨st, some .waiting_for_multiple_products_descriptions, ctx⟩
        else ⟨st, some .waiting_for_multiple_products_prices,
               ctxSet ctx "product_descriptions" (.vstrs descriptions)⟩

/-- The validation loop of `admin_add_multiple_products_prices`: parse
each token with `float`; the first token that fails to parse or fails the
positive check aborts the whole handler. -/
def parsePrices : List String → Option (List PyFloat)
  | [] => some []
  | t :: ts =>
      match pyFloat t with
      | none => none
      | some v =>
          if pyLe v (.finite 0) then none
          else (parsePrices ts).map (fun l => v :: l)

/-- Handler `admin_add_multiple_products_prices` (state
waiting_for_multiple_products_prices): the price count must equal the
stored name count and every token must parse and pass the positive check,
else the handler re-prompts with state and context unchanged. -/
def admin_add_multiple_products_prices (admins : Finset ℕ) (uid : ℕ)
    (st : DataStorage) (ctx : Ctx) (msg : Msg) : HStep :=
  if is_admin admins uid = false then ⟨st, none, []⟩
  else
    match msg.text with
    | none => ⟨st, some .waiting_for_multiple_products_prices, ctx⟩
    | some t =>
        let product_names := ctxStrs ctx "product_names"
        let price_texts := splitTrim t
        if price_texts.length ≠ product_names.length then
          ⟨st, some .waiting_for_multiple_products_prices, ctx⟩
        else
          match parsePrices price_texts with
          | none => ⟨st, some .waiting_for_multiple_products_prices, ctx⟩
          | some prices =>
              ⟨st, some .waiting_for_multiple_products_photos,
                ctxSet ctx "product_prices" (.vfloats prices)⟩

/-- The commit loop of `admin_add_multiple_products_finish`: one
`add_product` per name, pairing descriptions and prices by index with the
source fallbacks `""` and `0.0`. -/
def addManyProducts (cat city : Option ℕ) (photo : Option String)
    (descs : List String) (prices : List PyFloat) :
    DataStorage → ℕ → List String → DataStorage
  | st, _, [] => st
  | st, i, n :: rest =>
      addManyProducts cat city photo descs prices
        (add_product st
          { id := 0, name := n, description := descs.getD i "",
            price := prices.getD i (.finite 0), category_id := cat,
            city_id := city, photo_url := photo }).1
        (i + 1) rest

/-- Handler `admin_add_multiple_products_finish` (state
waiting_for_multiple_products_photos): re-checks that the three drafted
lists have equal lengths (clearing state and committing nothing when not),
processes the shared photo input, and commits one product per name —
category path with city_id None, city path with category_id None. -/
def admin_add_multiple_products_finish (admins : Finset ℕ) (uid : ℕ)
    (st : DataStorage) (ctx : Ctx) (msg : Msg) : HStep :=
  if is_admin admins uid = false then ⟨st, none, []⟩
  else
    let product_names := ctxStrs ctx "product_names"
    let product_descriptions := ctxStrs ctx "product_descriptions"
    let product_prices := ctxFloats ctx "product_prices"
    let multiple_type := (ctxStr? ctx "multiple_type").getD "category"
    if product_names.length ≠ product_descriptions.length ∨
       product_names.length ≠ product_prices.length then
      ⟨st, none, []⟩
    else
      match classifyPhoto msg with
      | .reject => ⟨st, some .waiting_for_multiple_products_photos, ctx⟩
      | .use f =>
          if multiple_type = "category" then
            ⟨addManyProducts (ctxNat? ctx "multiple_category_id") none (some f)
               product_descriptions product_prices st 0 product_names, none, []⟩
          else
            ⟨addManyProducts none (ctxNat? ctx "multiple_city_id") (some f)
               product_descriptions product_prices st 0 product_names, none, []⟩
      | .skip =>
          if multiple_type = "category" then
            ⟨addManyProducts (ctxNat? ctx "multiple_category_id") none none
               product_descriptions product_prices st 0 product_names, none, []⟩
          else
            ⟨addManyProducts none (ctxNat? ctx "multiple_city_id") none
               product_descriptions product_prices st 0 product_names, none, []⟩

/-- The `order_mapping` built by `admin_set_city_order_finish`:
`{city_id: position}` with 1-based positions, later duplicates
overwriting earlier ones as in a Python dict. -/
def buildOrderMapping (city_ids : List ℕ) : List (ℕ × ℕ) :=
  (city_ids.zip (List.range' 1 city_ids.length)).foldl
    (fun acc p => dinsert acc p.1 p.2) []

/-- Handler `admin_set_city_order_finish` (state waiting_for_city_order),
modelled from the point where the comma-separated text has been parsed
into a list of ids: an empty list re-prompts; if any id is missing from
the store the handler reports the missing ids and re-prompts, touching
nothing; otherwise the mapping is built and `bulk_update_city_orders`
applied, and the state cleared. -/
def admin_set_city_order_finish (admins : Finset ℕ) (uid : ℕ)
    (st : DataStorage) (city_ids : List ℕ) : DataStorage × Option UserState :=
  if is_admin admins uid = false then (st, none)
  else if city_ids = [] then (st, some .waiting_for_city_order)
  else
    let missing_ids := city_ids.filter (fun cid => ¬ dmem st.cities cid)
    if missing_ids ≠ [] then (st, some .waiting_for_city_order)
    else ((bulk_update_city_orders st (buildOrderMapping city_ids)).1, none)

/-- Handler `admin_delete_city_finish` (button `confirm_delete_city_<id>`):
re-check the city exists, then `delete_city`. -/
def admin_delete_city_finish (admins : Finset ℕ) (uid : ℕ)
    (st : DataStorage) (city_id : ℕ) : DataStorage × Bool :=
  if is_admin admins uid = false then (st, false)
  else
    match dget? st.cities city_id with
    | none => (st, false)
    | some _ => delete_city st city_id

/-- Result of `receive_payment_proof`: the store after the call, the FSM
state left behind and the id of the created order, if any. -/
structure ProofResult where
  store : DataStorage
  state : Option UserState
  order_id : Option ℕ
deriving DecidableEq, Repr

/-- Handler `receive_payment_proof` (state waiting_for_payment_proof):
look up the selected product; build an Order snapshotting the product
name and price, with the dataclass default status "pending", and persist
it via `add_order`.  A message with neither photo nor document re-prompts;
a missing product clears the conversation. -/
def receive_payment_proof (st : DataStorage) (ctx : Ctx) (uid : ℕ)
    (username : Option String) (msg : Msg) (now : String) : ProofResult :=
  let product_id? := ctxNat? ctx "selected_product_id"
  match product_id? with
  | none => ⟨st, none, none⟩
  | some pid =>
      match dget? st.products pid with
      | none => ⟨st, none, none⟩
      | some product =>
          if msg.photo = none ∧ msg.document = none then
            ⟨st, some .waiting_for_payment_proof, none⟩
          else
            let payment_proof :=
              match msg.photo with
              | some f => f
              | none => msg.document.getD ""
            let order : Order :=
              { id := 0, user_id := uid,
                username :=
                  match username with
                  | some u => if u = "" then "Без имени" else u
                  | none => "Без имени",
                product_id := pid,
                product_name := product.name,
                price := product.price,
                payment_method := ctxStr? ctx "payment_method",
                payment_proof := payment_proof,
                timestamp := now }
            let res := add_order st order
            ⟨res.1, none, some res.2⟩

/-- One send attempt per user of `confirm_broadcast`, 1-based position
`i`: a successful send increments the success counter, a failed one is
caught and increments the failure counter; either way the loop continues
with the next user.  Returns (success, failed, attempted ids in order). -/
def broadcastLoop (sendOk : ℕ → Bool) : List UserRec → ℕ → ℕ × ℕ × List ℕ
  | [], _ => (0, 0, [])
  | u :: rest, i =>
      let r := broadcastLoop sendOk rest (i + 1)
      if sendOk i then (r.1 + 1, r.2.1, u.id :: r.2.2)
      else (r.1, r.2.1 + 1, u.id :: r.2.2)

/-- The final report of `confirm_broadcast`: total recipients, success and
failure counts, the attempted ids, and the success percentage
`success / len(users) * 100`. -/
structure BroadcastReport where
  total : ℕ
  success : ℕ
  failed : ℕ
  attempts : List ℕ
  pct : ℚ
deriving DecidableEq, Repr

/-- Handler `confirm_broadcast`: with no stored message text or no users
it aborts without a report; otherwise it attempts one send per user,
isolating per-recipient failures, and reports the aggregate counts and
percentage.  `sendOk i` tells whether the send to the i-th user (1-based)
succeeds. -/
def confirm_broadcast (message_text : Option String) (users : List UserRec)
    (sendOk : ℕ → Bool) : Option BroadcastReport :=
  match message_text with
  | none => none
  | some t =>
      if t = "" ∨ users = [] then none
      else
        let r := broadcastLoop sendOk users 1
        some { total := users.length, success := r.1, failed := r.2.1,
               attempts := r.2.2,
               pct := (r.1 : ℚ) / (users.length : ℚ) * 100 }

/-- A key reported absent by `dmem` is found by no `find?` probe. -/
theorem find?_eq_none_of_dmem_false {κ α : Type} [DecidableEq κ]
    {d : List (κ × α)} {k : κ} (h : dmem d k = false) :
    d.find? (fun p => p.1 = k) = none := by
  induction d with
  | nil => rfl
  | cons a d ih =>
      simp only [dmem, List.any_cons, Bool.or_eq_false_iff] at h
      simp only [List.find?_cons, h.1]
      exact ih h.2

/-- `find?` ignores a prefix in which it finds nothing. -/
theorem find?_append_of_none {κ α : Type} [DecidableEq κ]
    {d l : List (κ × α)} {k : κ} (h : d.find? (fun p => p.1 = k) = none) :
    (d ++ l).find? (fun p => p.1 = k) = l.find? (fun p => p.1 = k) := by
  induction d with
  | nil => rfl
  | cons a d ih =>
      by_cases hd : a.1 = k
      · exfalso
        rw [List.find?_cons_of_pos _ (by simpa using hd)] at h
        exact Option.some_ne_none _ h
      · rw [List.find?_cons_of_neg _ (by simpa using hd)] at h
        rw [List.cons_append, List.find?_cons_of_neg _ (by simpa using hd)]
        exact ih h

/-- Overwriting the entries at a present key makes the first probe for
that key return the written pair. -/
theorem find?_map_overwrite {κ α : Type} [DecidableEq κ]
    {d : List (κ × α)} {k : κ} (v : α) (h : dmem d k = true) :
    (d.map (fun p => if p.1 = k then (k, v) else p)).find? (fun p => p.1 = k) =
      some (k, v) := by
  induction d with
  | nil => simp [dmem] at h
  | cons a d ih =>
      by_cases ha : a.1 = k
      · rw [List.map_cons, if_pos ha, List.find?_cons_of_pos _ (by simp)]
      · have h2 : dmem d k = true := by
          simp only [dmem, List.any_cons, decide_eq_true_eq, ha, false_or] at h
          exact h
        rw [List.map_cons, if_neg ha, List.find?_cons_of_neg _ (by simpa using ha)]
        exact ih h2

/-- Looking up a key just written returns the written value. -/
theorem dget?_dinsert_self {κ α : Type} [DecidableEq κ]
    (d : List (κ × α)) (k : κ) (v : α) : dget? (dinsert d k v) k = some v := by
  unfold dinsert
  by_cases h : dmem d k = true
  · rw [if_pos h]
    unfold dget?
    rw [find?_map_overwrite v h]
  · rw [if_neg h]
    unfold dget?
    rw [find?_append_of_none (find?_eq_none_of_dmem_false (by simpa using h))]
    rw [List.find?_cons_of_pos _ (by simp)]

/-- A value present after `dinsert` is either the written value or was
present before. -/
theorem mem_dvalues_dinsert {κ α : Type} [DecidableEq κ]
    {d : List (κ × α)} {k : κ} {v q : α}
    (h : q ∈ dvalues (dinsert d k v)) : q = v ∨ q ∈ dvalues d := by
  unfold dinsert at h
  by_cases hm : dmem d k = true
  · rw [if_pos hm] at h
    unfold dvalues at h ⊢
    simp only [List.map_map, List.mem_map, Function.comp] at h
    obtain ⟨p, hp, hq⟩ := h
    by_cases hk : p.1 = k
    · left
      rw [if_pos hk] at hq
      exact hq.symm
    · right
      rw [if_neg hk] at hq
      exact List.mem_map.mpr ⟨p, hp, hq⟩
  · rw [if_neg hm] at h
    unfold dvalues at h
    rw [List.map_append] at h
    rcases List.mem_append.mp h with h1 | h2
    · exact Or.inr h1
    · simp only [List.map_cons, List.map_nil, List.mem_singleton] at h2
      exact Or.inl h2

/-- A value surviving `derase` was present before. -/
theorem mem_dvalues_derase {κ α : Type} [DecidableEq κ]
    {d : List (κ × α)} {k : κ} {q : α}
    (h : q ∈ dvalues (derase d k)) : q ∈ dvalues d := by
  unfold derase at h
  unfold dvalues at h ⊢
  simp only [List.mem_map] at h ⊢
  obtain ⟨p, hp, hq⟩ := h
  exact ⟨p, List.mem_of_mem_filter hp, hq⟩

/-- A predicate preserved by each step of a fold is preserved by the whole
fold. -/
theorem foldl_preserves {σ β : Type} (P : σ → Prop) (f : σ → β → σ)
    (hf : ∀ s b, P s → P (f s b)) :
    ∀ (l : List β) (s : σ), P s → P (l.foldl f s) := by
  intro l
  induction l with
  | nil => intro s hs; exact hs
  | cons a l ih => intro s hs; exact ih _ (hf _ _ hs)

/-- `delete_product` leaves the orders collection untouched. -/
theorem delete_product_orders (st : DataStorage) (k : ℕ) :
    ((delete_product st k).1).orders = st.orders := by
  unfold delete_product
  split <;> rfl

/-- `delete_category` leaves the orders collection untouched. -/
theorem delete_category_orders (st : DataStorage) (k : ℕ) :
    ((delete_category st k).1).orders = st.orders := by
  unfold delete_category
  split
  · dsimp only
    apply foldl_preserves (fun s => s.orders = st.orders) _
      (fun s b hs => (delete_product_orders s b).trans hs)
    rfl
  · rfl

/-- `delete_city` leaves the orders collection untouched. -/
theorem delete_city_orders (st : DataStorage) (k : ℕ) :
    ((delete_city st k).1).orders = st.orders := by
  unfold delete_city
  split
  · dsimp only
    apply foldl_preserves (fun s => s.orders = st.orders) _
      (fun s b hs => (delete_category_orders s b).trans hs)
    rfl
  · rfl

/-- A product is attached to at most one of a category and a city. -/
def productExclusive (p : Product) : Prop :=
  p.category_id = none ∨ p.city_id = none

/-- Every product in the store is attached to at most one parent. -/
def storeExclusive (st : DataStorage) : Prop :=
  ∀ p ∈ dvalues st.products, productExclusive p

/-- Adding a product that satisfies the exclusivity invariant preserves
it store-wide (the id rewrite performed by `add_product` does not touch
the attachment fields). -/
theorem storeExclusive_add_product {st : DataStorage} {p : Product}
    (hst : storeExclusive st) (hp : productExclusive p) :
    storeExclusive (add_product st p).1 := by
  intro q hq
  rcases mem_dvalues_dinsert hq with h | h
  · subst h
    exact hp
  · exact hst q h

/-- `delete_product` preserves the exclusivity invariant. -/
theorem storeExclusive_delete_product {st : DataStorage} (k : ℕ)
    (hst : storeExclusive st) : storeExclusive (delete_product st k).1 := by
  unfold delete_product
  split
  · intro q hq
    exact hst q (mem_dvalues_derase hq)
  · exact hst

/-- `delete_category` preserves the exclusivity invariant. -/
theorem storeExclusive_delete_category {st : DataStorage} (k : ℕ)
    (hst : storeExclusive st) : storeExclusive (delete_category st k).1 := by
  unfold delete_category
  split
  · dsimp only
    apply foldl_preserves storeExclusive _
      (fun s b hs => storeExclusive_delete_product b hs)
    exact hst
  · exact hst

/-- `delete_city` preserves the exclusivity invariant. -/
theorem storeExclusive_delete_city {st : DataStorage} (k : ℕ)
    (hst : storeExclusive st) : storeExclusive (delete_city st k).1 := by
  unfold delete_city
  split
  · dsimp only
    apply foldl_preserves storeExclusive _
      (fun s b hs => storeExclusive_delete_category b hs)
    exact hst
  · exact hst

/-- The bulk-commit loop preserves the exclusivity invariant as long as
one of the two attachment arguments is None, which is the case on both
branches of the bulk finish handler. -/
theorem storeExclusive_addManyProducts (cat city : Option ℕ)
    (photo : Option String) (descs : List String) (prices : List PyFloat)
    (hx : cat = none ∨ city = none) :
    ∀ (names : List String) (st : DataStorage) (i : ℕ), storeExclusive st →
      storeExclusive (addManyProducts cat city photo descs prices st i names) := by
  intro names
  induction names with
  | nil => intro st i hst; exact hst
  | cons n rest ih =>
      intro st i hst
      exact ih _ _ (storeExclusive_add_product hst hx)

/-- The ids allocated by a sequence of `add_product` calls, in call
order. -/
def addProducts : DataStorage → List Product → DataStorage × List ℕ
  | st, [] => (st, [])
  | st, p :: rest =>
      let r1 := add_product st p
      let r2 := addProducts r1.1 rest
      (r2.1, r1.2 :: r2.2)

/-- A sequence of adds allocates the consecutive ids starting at the
current counter. -/
theorem addProducts_ids (ps : List Product) :
    ∀ st : DataStorage,
      (addProducts st ps).2 = List.range' st.next_product_id ps.length := by
  induction ps with
  | nil => intro st; rfl
  | cons p rest ih =>
      intro st
      show (add_product st p).2 :: (addProducts (add_product st p).1 rest).2 =
        List.range' st.next_product_id (rest.length + 1)
      rw [List.range'_succ, ih]
      rfl

/-- The seed of a running maximum is below the result. -/
theorem seed_le_foldl_max (l : List ℕ) : ∀ a : ℕ, a ≤ l.foldl max a := by
  induction l with
  | nil => intro a; exact le_refl a
  | cons c l ih => intro a; exact le_trans (le_max_left a c) (ih (max a c))

/-- Every member of a list is bounded by its running maximum. -/
theorem le_foldl_max {l : List ℕ} {i : ℕ} (h : i ∈ l) :
    ∀ a : ℕ, i ≤ l.foldl max a := by
  induction l with
  | nil => exact absurd h (List.not_mem_nil i)
  | cons b l ih =>
      intro a
      rcases List.mem_cons.mp h with h1 | h2
      · subst h1
        exact le_trans (le_max_right a i) (seed_le_foldl_max l (max a i))
      · exact ih h2 (max a b)

/-- The running maximum never exceeds a bound dominating the seed and
every member. -/
theorem foldl_max_le {l : List ℕ} {m : ℕ} (hl : ∀ b ∈ l, b ≤ m) :
    ∀ a : ℕ, a ≤ m → l.foldl max a ≤ m := by
  induction l with
  | nil => intro a ha; exact ha
  | cons b l ih =>
      intro a ha
      exact ih (fun c hc => hl c (List.mem_cons_of_mem b hc)) (max a b)
        (max_le ha (hl b (List.mem_cons_self b l)))

/-- The broadcast loop attempts every user exactly once, in order, and
its two counters partition the user list. -/
theorem broadcastLoop_spec (sendOk : ℕ → Bool) :
    ∀ (users : List UserRec) (i : ℕ),
      (broadcastLoop sendOk users i).1 + (broadcastLoop sendOk users i).2.1 =
        users.length ∧
      (broadcastLoop sendOk users i).2.2 = users.map (fun u => u.id) := by
  intro users
  induction users with
  | nil => intro i; exact ⟨rfl, rfl⟩
  | cons u rest ih =>
      intro i
      obtain ⟨h1, h2⟩ := ih (i + 1)
      by_cases hs : sendOk i = true
      · simp only [broadcastLoop, hs, if_true, List.map_cons, List.length_cons]
        exact ⟨by omega, by rw [h2]⟩
      · have hs2 : sendOk i = false := by simpa using hs
        simp only [broadcastLoop, hs2, Bool.false_eq_true, if_false,
          List.map_cons, List.length_cons]
        exact ⟨by omega, by rw [h2]⟩

/-- Failing input for claim C1: one city (id 1) with one product attached
directly to it (city_id 1, category_id None) and no categories. -/
def c1Product : Product :=
  { id := 1, name := "Hammer", description := "steel hammer",
    price := .finite 5, category_id := none, city_id := some 1 }

/-- Store holding only the city and its directly attached product. -/
def c1Store : DataStorage :=
  { cities := [(1, { id := 1, name := "Riverton", order := 1 })],
    products := [(1, c1Product)],
    next_product_id := 2, next_city_id := 2 }

/-- C1: the claim says deleting a city also removes every product attached
directly to it, and the confirmation dialog in the code promises the same;
but `delete_city` only cascades through categories, so after deleting city
1 the call reports success, the city is gone, and the directly attached
product is still in the store, still referencing the deleted city. -/
theorem C1_delete_city_keeps_direct_city_product :
    (delete_city c1Store 1).2 = true ∧
    dget? (delete_city c1Store 1).1.cities 1 = none ∧
    dget? (delete_city c1Store 1).1.products 1 = some c1Product ∧
    c1Product.city_id = some 1 ∧ c1Product.category_id = none := by
  refine ⟨rfl, rfl, rfl, rfl, rfl⟩

/-- C2: when the id list of a bulk city-reorder request contains at least
one id missing from the store, the handler reports the missing ids and
returns with the store — in particular every order field of every city —
exactly as it was: nothing is applied. -/
theorem C2_reorder_unknown_id_all_or_nothing
    (admins : Finset ℕ) (uid : ℕ) (st : DataStorage) (city_ids : List ℕ)
    (h : ∃ cid ∈ city_ids, dmem st.cities cid = false) :
    (admin_set_city_order_finish admins uid st city_ids).1 = st := by
  obtain ⟨cid, hmem, hfalse⟩ := h
  have hfil : cid ∈ city_ids.filter (fun c => ¬ dmem st.cities c) := by
    apply List.mem_filter.mpr
    exact ⟨hmem, by simp [hfalse]⟩
  unfold admin_set_city_order_finish
  split
  · rfl
  · split
    · rfl
    · dsimp only
      split
      · rfl
      · next hmiss =>
          exact absurd (not_not.mp hmiss) (List.ne_nil_of_mem hfil)

/-- Witness store for C2: five cities with known orders. -/
def c2Store : DataStorage :=
  { cities := [(1, { id := 1, name := "A", order := 1 }),
               (2, { id := 2, name := "B", order := 2 }),
               (3, { id := 3, name := "C", order := 3 }),
               (4, { id := 4, name := "D", order := 4 }),
               (5, { id := 5, name := "E", order := 5 })],
    next_city_id := 6 }

/-- Witness for C2: a request listing four valid ids and the unknown id 99
leaves the five-city store untouched. -/
theorem C2_reorder_unknown_id_witness :
    (admin_set_city_order_finish {7} 7 c2Store [1, 2, 3, 4, 99]).1 = c2Store :=
  C2_reorder_unknown_id_all_or_nothing {7} 7 c2Store [1, 2, 3, 4, 99]
    ⟨99, by decide, by decide⟩

/-- C5: `remove_admin` returns false and leaves the admin set unchanged
whenever the target equals the requester (self-removal, regardless of how
many admins exist) or the requester is not an admin. -/
theorem C5_remove_admin_rejects_self_and_nonadmin
    (admins : Finset ℕ) (user_id requester_id : ℕ)
    (h : user_id = requester_id ∨ is_admin admins requester_id = false) :
    remove_admin admins user_id requester_id = (admins, false) := by
  unfold remove_admin
  rcases h with h | h
  · by_cases ha : is_admin admins requester_id = false
    · rw [if_pos ha]
    · rw [if_neg ha, if_pos h]
  · rw [if_pos h]

/-- Witness for C5: an admin who tries to remove themselves from a
two-admin set gets false and the set is unchanged. -/
theorem C5_remove_admin_witness :
    remove_admin ({8104914597, 42} : Finset ℕ) 8104914597 8104914597 =
      (({8104914597, 42} : Finset ℕ), false) :=
  C5_remove_admin_rejects_self_and_nonadmin _ 8104914597 8104914597 (Or.inl rfl)

/-- C3: a valid payment proof for an existing selected product creates an
order whose status is the dataclass default "pending" and whose
product_name and price fields snapshot the product at creation time; and
none of the later product operations — `delete_product`, `delete_category`
or `delete_city` (the store has no product update operation) — touches the
orders collection, so the snapshot is immutable. -/
theorem C3_order_snapshot_immutable :
    (∀ (st : DataStorage) (ctx : Ctx) (uid : ℕ) (username : Option String)
        (msg : Msg) (now : String) (pid : ℕ) (product : Product),
        ctxNat? ctx "selected_product_id" = some pid →
        dget? st.products pid = some product →
        ¬ (msg.photo = none ∧ msg.document = none) →
        (receive_payment_proof st ctx uid username msg now).order_id =
          some st.next_order_id ∧
        ∃ o : Order,
          dget? (receive_payment_proof st ctx uid username msg now).store.orders
            st.next_order_id = some o ∧
          o.status = "pending" ∧ o.product_name = product.name ∧
          o.price = product.price) ∧
    (∀ (st : DataStorage) (k : ℕ), (delete_product st k).1.orders = st.orders) ∧
    (∀ (st : DataStorage) (k : ℕ), (delete_category st k).1.orders = st.orders) ∧
    (∀ (st : DataStorage) (k : ℕ), (delete_city st k).1.orders = st.orders) := by
  refine ⟨?_, delete_product_orders, delete_category_orders, delete_city_orders⟩
  intro st ctx uid username msg now pid product h1 h2 h3
  unfold receive_payment_proof
  rw [h1]
  dsimp only
  rw [h2]
  dsimp only
  rw [if_neg h3]
  dsimp only
  exact ⟨rfl, _, dget?_dinsert_self _ _ _, rfl, rfl, rfl⟩

/-- Witness inputs for C3: one product with price 9.99 and a conversation
that selected it and paid by card. -/
def c3Product : Product :=
  { id := 7, name := "Hammer", description := "steel hammer",
    price := .finite (999 / 100 : ℚ), category_id := some 2 }

/-- Witness store for C3. -/
def c3Store : DataStorage :=
  { products := [(7, c3Product)], next_product_id := 8, next_order_id := 1 }

/-- Witness context for C3. -/
def c3Ctx : Ctx :=
  [("selected_product_id", .vnat 7), ("payment_method", .vstr "card")]

/-- Witness for C3: submitting a photo proof creates order 1 with status
pending and the 9.99 snapshot. -/
theorem C3_order_snapshot_witness :
    (receive_payment_proof c3Store c3Ctx 500 (some "buyer")
        { photo := some "proofpic" } "2026-01-01").order_id =
      some c3Store.next_order_id ∧
    ∃ o : Order,
      dget? (receive_payment_proof c3Store c3Ctx 500 (some "buyer")
          { photo := some "proofpic" } "2026-01-01").store.orders
        c3Store.next_order_id = some o ∧
      o.status = "pending" ∧ o.product_name = c3Product.name ∧
      o.price = c3Product.price :=
  C3_order_snapshot_immutable.1 c3Store c3Ctx 500 (some "buyer")
    { photo := some "proofpic" } "2026-01-01" 7 c3Product rfl rfl (by simp)

/-- C4: each of the four add operations returns the current next-id
counter and bumps it by one; a sequence of product adds allocates exactly
the consecutive ids starting at the counter, which is strictly increasing
and injective (no reuse); and the reload recomputation
`max([...ids...] + [0]) + 1` yields 1 on an empty collection, the maximum
plus one on a non-empty one, and a value strictly above every existing id. -/
theorem C4_id_allocation :
    (∀ (st : DataStorage) (p : Product),
        (add_product st p).2 = st.next_product_id ∧
        (add_product st p).1.next_product_id = st.next_product_id + 1) ∧
    (∀ (st : DataStorage) (c : Category),
        (add_category st c).2 = st.next_category_id ∧
        (add_category st c).1.next_category_id = st.next_category_id + 1) ∧
    (∀ (st : DataStorage) (c : City),
        (add_city st c).2 = st.next_city_id ∧
        (add_city st c).1.next_city_id = st.next_city_id + 1) ∧
    (∀ (st : DataStorage) (o : Order),
        (add_order st o).2 = st.next_order_id ∧
        (add_order st o).1.next_order_id = st.next_order_id + 1) ∧
    (∀ (st : DataStorage) (ps : List Product),
        (addProducts st ps).2 = List.range' st.next_product_id ps.length ∧
        (addProducts st ps).2.Pairwise (· < ·) ∧
        (addProducts st ps).2.Nodup) ∧
    recomputeNextId [] = 1 ∧
    (∀ (ids : List ℕ) (m : ℕ), ids.maximum = some m →
        recomputeNextId ids = m + 1) ∧
    (∀ (ids : List ℕ) (i : ℕ), i ∈ ids → i < recomputeNextId ids) := by
  refine ⟨fun st p => ⟨rfl, rfl⟩, fun st c => ⟨rfl, rfl⟩, fun st c => ⟨rfl, rfl⟩,
    fun st o => ⟨rfl, rfl⟩, ?_, rfl, ?_, ?_⟩
  · intro st ps
    have h := addProducts_ids ps st
    refine ⟨h, ?_, ?_⟩
    · rw [h]
      exact List.pairwise_lt_range' _ _
    · rw [h]
      exact List.nodup_range' _ _
  · intro ids m hm
    have hmem : m ∈ ids := List.maximum_mem hm
    have hle : ∀ b ∈ ids, b ≤ m := fun b hb => List.le_maximum_of_mem hb hm
    unfold recomputeNextId
    have hub : ids.foldl max 0 ≤ m := foldl_max_le hle 0 (Nat.zero_le m)
    have hlb : m ≤ ids.foldl max 0 := le_foldl_max hmem 0
    omega
  · intro ids i hi
    unfold recomputeNextId
    have := le_foldl_max hi 0
    omega

/-- Witness for C4: reloading a collection whose ids are 3 and 7 sets the
next-id counter to 8. -/
theorem C4_id_allocation_witness : recomputeNextId [3, 7] = 7 + 1 :=
  (C4_id_allocation.2.2.2.2.2.2.1) [3, 7] 7 (by decide)

/-- C6: in the bulk product add workflow, a description list whose token
count differs from the stored name count, or a price list whose token
count differs from it, is rejected in place — same state, context and
store unchanged — and the finish handler commits nothing unless all three
stored lists have equal lengths. -/
theorem C6_bulk_add_count_mismatch :
    (∀ (admins : Finset ℕ) (uid : ℕ) (st : DataStorage) (ctx : Ctx) (t : String),
        is_admin admins uid = true →
        (splitTrim t).length ≠ (ctxStrs ctx "product_names").length →
        admin_add_multiple_products_descriptions admins uid st ctx { text := some t } =
          ⟨st, some UserState.waiting_for_multiple_products_descriptions, ctx⟩) ∧
    (∀ (admins : Finset ℕ) (uid : ℕ) (st : DataStorage) (ctx : Ctx) (t : String),
        is_admin admins uid = true →
        (splitTrim t).length ≠ (ctxStrs ctx "product_names").length →
        admin_add_multiple_products_prices admins uid st ctx { text := some t } =
          ⟨st, some UserState.waiting_for_multiple_products_prices, ctx⟩) ∧
    (∀ (admins : Finset ℕ) (uid : ℕ) (st : DataStorage) (ctx : Ctx) (msg : Msg),
        (ctxStrs ctx "product_names").length ≠
            (ctxStrs ctx "product_descriptions").length ∨
        (ctxStrs ctx "product_names").length ≠
            (ctxFloats ctx "product_prices").length →
        (admin_add_multiple_products_finish admins uid st ctx msg).store = st) := by
  refine ⟨?_, ?_, ?_⟩
  · intro admins uid st ctx t hadm hne
    unfold admin_add_multiple_products_descriptions
    rw [hadm]
    rw [if_neg (by simp)]
    dsimp only
    rw [if_pos hne]
  · intro admins uid st ctx t hadm hne
    unfold admin_add_multiple_products_prices
    rw [hadm]
    rw [if_neg (by simp)]
    dsimp only
    rw [if_pos hne]
  · intro admins uid st ctx msg hor
    unfold admin_add_multiple_products_finish
    by_cases hadm : is_admin admins uid = false
    · rw [if_pos hadm]
    · rw [if_neg hadm]
      dsimp only
      rw [if_pos hor]

/-- Witness for C6: three names with two descriptions are rejected with
zero products created and the draft unchanged. -/
theorem C6_bulk_add_count_mismatch_witness :
    admin_add_multiple_products_descriptions {7} 7 {}
        [("product_names", CVal.vstrs ["a", "b", "c"])] { text := some "d1, d2" } =
      ⟨{}, some UserState.waiting_for_multiple_products_descriptions,
        [("product_names", CVal.vstrs ["a", "b", "c"])]⟩ :=
  C6_bulk_add_count_mismatch.1 {7} 7 {}
    [("product_names", CVal.vstrs ["a", "b", "c"])] "d1, d2" (by decide) (by decide)

/-- C7 (amended): in both single product add flows, a price message whose
text fails float parsing, or parses to a value that the `price <= 0` check
accepts as non-positive, re-prompts with state, context and store
unchanged and no product created; a message parsing to a value for which
that check is false advances to the photo step.  The values passing the
check are exactly every positive number — and also NaN, which Python
orders against nothing, so it is neither rejected as non-positive nor a
positive number. -/
theorem C7_price_validation :
    (∀ (admins : Finset ℕ) (uid : ℕ) (st : DataStorage) (ctx : Ctx) (t : String),
        is_admin admins uid = true →
        (pyFloat t = none →
          admin_add_product_price admins uid st ctx { text := some t } =
            ⟨st, some UserState.waiting_for_product_price, ctx⟩ ∧
          admin_add_product_to_city_price admins uid st ctx { text := some t } =
            ⟨st, some UserState.waiting_for_product_price_direct, ctx⟩) ∧
        (∀ v : PyFloat, pyFloat t = some v →
          (pyLe v (.finite 0) = true →
            admin_add_product_price admins uid st ctx { text := some t } =
              ⟨st, some UserState.waiting_for_product_price, ctx⟩ ∧
            admin_add_product_to_city_price admins uid st ctx { text := some t } =
              ⟨st, some UserState.waiting_for_product_price_direct, ctx⟩) ∧
          (pyLe v (.finite 0) = false →
            admin_add_product_price admins uid st ctx { text := some t } =
              ⟨st, some UserState.waiting_for_product_photo,
                ctxSet ctx "product_price" (.vfloat v)⟩ ∧
            admin_add_product_to_city_price admins uid st ctx { text := some t } =
              ⟨st, some UserState.waiting_for_product_photo_direct,
                ctxSet ctx "direct_product_price" (.vfloat v)⟩))) ∧
    (∀ q : ℚ, 0 < q → pyLe (.finite q) (.finite 0) = false) ∧
    pyLe PyFloat.nan (PyFloat.finite 0) = false := by
  refine ⟨?_, ?_, rfl⟩
  · intro admins uid st ctx t hadm
    refine ⟨?_, ?_⟩
    · intro hp
      constructor
      · unfold admin_add_product_price
        rw [hadm, if_neg (by simp)]
        dsimp only
        rw [hp]
      · unfold admin_add_product_to_city_price
        rw [hadm, if_neg (by simp)]
        dsimp only
        rw [hp]
    · intro v hp
      refine ⟨?_, ?_⟩
      · intro hle
        constructor
        · unfold admin_add_product_price
          rw [hadm, if_neg (by simp)]
          dsimp only
          rw [hp]
          dsimp only
          rw [if_pos hle]
        · unfold admin_add_product_to_city_price
          rw [hadm, if_neg (by simp)]
          dsimp only
          rw [hp]
          dsimp only
          rw [if_pos hle]
      · intro hle
        constructor
        · unfold admin_add_product_price
          rw [hadm, if_neg (by simp)]
          dsimp only
          rw [hp]
          dsimp only
          rw [if_neg (by simp [hle])]
        · unfold admin_add_product_to_city_price
          rw [hadm, if_neg (by simp)]
          dsimp only
          rw [hp]
          dsimp only
          rw [if_neg (by simp [hle])]
  · intro q hq
    unfold pyLe
    simp [not_le.mpr hq]

/-- Counterexample for C7 as stated: the text "nan" does not parse as a
positive number — it parses to NaN, which compares false against 0 in both
directions — yet both price handlers advance the flow to the photo step
instead of re-prompting. -/
theorem C7_nan_price_counterexample :
    pyFloat "nan" = some PyFloat.nan ∧
    pyLe (PyFloat.finite 0) PyFloat.nan = false ∧
    pyLe PyFloat.nan (PyFloat.finite 0) = false ∧
    (admin_add_product_price {7} 7 {} [] { text := some "nan" }).state =
      some UserState.waiting_for_product_photo ∧
    (admin_add_product_to_city_price {7} 7 {} [] { text := some "nan" }).state =
      some UserState.waiting_for_product_photo_direct := by
  refine ⟨by decide, rfl, rfl, by decide, by decide⟩

/-- Witness for C7: the non-numeric text "abc" re-prompts the category
flow price state with everything unchanged. -/
theorem C7_price_validation_witness :
    admin_add_product_price {7} 7 {} [] { text := some "abc" } =
      ⟨{}, some UserState.waiting_for_product_price, []⟩ :=
  (((C7_price_validation.1) {7} 7 {} [] "abc" (by decide)).1 (by decide)).1

/-- Scenario users for C8: 23 recipients with ids 1..23. -/
def c8Users : List UserRec :=
  (List.range' 1 23).map (fun i => { id := i, username := "", date := "" })

/-- Scenario failure pattern for C8: the send to user 15 fails, all
others succeed. -/
def c8SendOk : ℕ → Bool := fun i => decide (i ≠ 15)

/-- C8: whenever the broadcast runs, it attempts one send per user in list
order (a failure never aborts the rest), the success and failure counts
partition the recipients, and the reported percentage is
success / total * 100; in the 23-user scenario with user 15 failing the
report shows 22 successes, 1 failure and 95.7 percent (957 tenths). -/
theorem C8_broadcast_failure_isolation :
    (∀ (t : String) (users : List UserRec) (sendOk : ℕ → Bool)
        (r : BroadcastReport),
        confirm_broadcast (some t) users sendOk = some r →
        r.attempts = users.map (fun u => u.id) ∧
        r.total = users.length ∧
        r.success + r.failed = users.length ∧
        r.pct = (r.success : ℚ) / (users.length : ℚ) * 100) ∧
    (confirm_broadcast (some "hello") c8Users c8SendOk).map
        (fun r => r.total) = some 23 ∧
    (confirm_broadcast (some "hello") c8Users c8SendOk).map
        (fun r => r.success) = some 22 ∧
    (confirm_broadcast (some "hello") c8Users c8SendOk).map
        (fun r => r.failed) = some 1 ∧
    (confirm_broadcast (some "hello") c8Users c8SendOk).map
        (fun r => r.pct) = some (((22 : ℕ) : ℚ) / ((23 : ℕ) : ℚ) * 100) ∧
    round (10 * (((22 : ℕ) : ℚ) / ((23 : ℕ) : ℚ) * 100)) = 957 := by
  refine ⟨?_, by decide, by decide, by decide, ?_, by push_cast; norm_num [round_eq]⟩
  case refine_2 =>
    unfold confirm_broadcast
    dsimp only
    rw [if_neg (by decide)]
    dsimp only [Option.map]
    rw [(by decide : (broadcastLoop c8SendOk c8Users 1).1 = 22),
        (by decide : c8Users.length = 23)]
  intro t users sendOk r h
  unfold confirm_broadcast at h
  dsimp only at h
  split at h
  · exact absurd h (by simp)
  · obtain ⟨hsum, hatt⟩ := broadcastLoop_spec sendOk users 1
    cases h
    exact ⟨hatt, rfl, hsum, rfl⟩

/-- Witness for C8: a single-recipient broadcast whose send succeeds
reports one attempt, one success and no failure. -/
theorem C8_broadcast_failure_isolation_witness :
    ({ total := 1, success := 1, failed := 0, attempts := [4],
       pct := (1 : ℚ) / (1 : ℚ) * 100 } : BroadcastReport).attempts =
        [({ id := 4, username := "", date := "" } : UserRec)].map (fun u => u.id) ∧
    ({ total := 1, success := 1, failed := 0, attempts := [4],
       pct := (1 : ℚ) / (1 : ℚ) * 100 } : BroadcastReport).total =
        [({ id := 4, username := "", date := "" } : UserRec)].length ∧
    ({ total := 1, success := 1, failed := 0, attempts := [4],
       pct := (1 : ℚ) / (1 : ℚ) * 100 } : BroadcastReport).success +
      ({ total := 1, success := 1, failed := 0, attempts := [4],
         pct := (1 : ℚ) / (1 : ℚ) * 100 } : BroadcastReport).failed =
        [({ id := 4, username := "", date := "" } : UserRec)].length ∧
    ({ total := 1, success := 1, failed := 0, attempts := [4],
       pct := (1 : ℚ) / (1 : ℚ) * 100 } : BroadcastReport).pct =
      (({ total := 1, success := 1, failed := 0, attempts := [4],
          pct := (1 : ℚ) / (1 : ℚ) * 100 } : BroadcastReport).success : ℚ) /
        (([({ id := 4, username := "", date := "" } : UserRec)].length : ℕ) : ℚ) * 100 :=
  C8_broadcast_failure_isolation.1 "hi"
    [{ id := 4, username := "", date := "" }] (fun _ => true) _ rfl

/-- C9: every product committed by any of the product-creating workflow
handlers has at most one attachment — the category flow commits with
city_id None, the direct-to-city flow with category_id None, and both
branches of the bulk flow keep one side None — and every delete operation
only removes products, so the store-wide exclusivity invariant is
preserved by all of them. -/
theorem C9_attachment_mutual_exclusion :
    (∀ (admins : Finset ℕ) (uid : ℕ) (st : DataStorage) (ctx : Ctx) (msg : Msg),
        storeExclusive st →
        storeExclusive (admin_add_product_finish admins uid st ctx msg).store) ∧
    (∀ (admins : Finset ℕ) (uid : ℕ) (st : DataStorage) (ctx : Ctx) (msg : Msg),
        storeExclusive st →
        storeExclusive (admin_add_product_to_city_finish admins uid st ctx msg).store) ∧
    (∀ (admins : Finset ℕ) (uid : ℕ) (st : DataStorage) (ctx : Ctx) (msg : Msg),
        storeExclusive st →
        storeExclusive (admin_add_multiple_products_finish admins uid st ctx msg).store) ∧
    (∀ (st : DataStorage) (k : ℕ),
        storeExclusive st → storeExclusive (delete_product st k).1) ∧
    (∀ (st : DataStorage) (k : ℕ),
        storeExclusive st → storeExclusive (delete_category st k).1) ∧
    (∀ (st : DataStorage) (k : ℕ),
        storeExclusive st → storeExclusive (delete_city st k).1) := by
  refine ⟨?_, ?_, ?_, fun st k h => storeExclusive_delete_product k h,
    fun st k h => storeExclusive_delete_category k h,
    fun st k h => storeExclusive_delete_city k h⟩
  · intro admins uid st ctx msg hst
    unfold admin_add_product_finish
    split
    · exact hst
    · split
      · exact hst
      · exact storeExclusive_add_product hst (Or.inr rfl)
      · exact storeExclusive_add_product hst (Or.inr rfl)
  · intro admins uid st ctx msg hst
    unfold admin_add_product_to_city_finish
    split
    · exact hst
    · split
      · exact hst
      · split
        · exact hst
        · split
          · exact hst
          · exact storeExclusive_add_product hst (Or.inl rfl)
      · split
        · exact hst
        · split
          · exact hst
          · exact storeExclusive_add_product hst (Or.inl rfl)
  · intro admins uid st ctx msg hst
    unfold admin_add_multiple_products_finish
    split
    · exact hst
    · dsimp only
      split
      · exact hst
      · split
        · exact hst
        · split
          · exact storeExclusive_addManyProducts _ _ _ _ _ (Or.inr rfl) _ _ _ hst
          · exact storeExclusive_addManyProducts _ _ _ _ _ (Or.inl rfl) _ _ _ hst
        · split
          · exact storeExclusive_addManyProducts _ _ _ _ _ (Or.inr rfl) _ _ _ hst
          · exact storeExclusive_addManyProducts _ _ _ _ _ (Or.inl rfl) _ _ _ hst

/-- Witness for C9: committing a category-flow product into the empty
store keeps the exclusivity invariant. -/
theorem C9_attachment_mutual_exclusion_witness :
    storeExclusive (admin_add_product_finish {7} 7 {}
        [("product_name", CVal.vstr "x"), ("product_category_id", CVal.vnat 3)]
        { photo := some "f" }).store := by
  apply C9_attachment_mutual_exclusion.1
  intro p hp
  simp [dvalues] at hp

/-- The value a keyword patch leaves in the field named `k`: the last
patch entry for `k`, or the previous value when the patch never names
it. -/
def lastVal (kwargs : List (String × CVal)) (k : String) (d : CVal) : CVal :=
  kwargs.foldl (fun acc p => if p.1 = k then p.2 else acc) d

/-- A `setattr`-style update whose effect on one field is an
if-on-key-name propagates through the keyword fold as `lastVal`. -/
theorem foldl_setattr_field {σ : Type} (set : σ → String → CVal → σ)
    (g : σ → CVal) (K : String)
    (hset : ∀ (s : σ) (k : String) (v : CVal),
      g (set s k v) = if k = K then v else g s) :
    ∀ (kwargs : List (String × CVal)) (s : σ),
      g (kwargs.foldl (fun acc p => set acc p.1 p.2) s) = lastVal kwargs K (g s) := by
  intro kwargs
  induction kwargs with
  | nil => intro s; rfl
  | cons p rest ih =>
      intro s
      show g (rest.foldl _ (set s p.1 p.2)) =
        lastVal rest K (if p.1 = K then p.2 else g s)
      rw [ih, hset]

/-- A patch none of whose keys raises in `setattr` runs every iteration
of the payment update loop, i.e. the update is the plain fold of the
per-key step. -/
theorem update_payment_details_eq_foldl :
    ∀ (kwargs : List (String × CVal)) (pd : PaymentDetails),
      (∀ p ∈ kwargs, p.1 ∉ raisingAttrKeys) →
      update_payment_details pd kwargs =
        kwargs.foldl (fun acc p => setPaymentAttr acc p.1 p.2) pd := by
  intro kwargs
  induction kwargs with
  | nil => intro pd h; rfl
  | cons p rest ih =>
      intro pd h
      obtain ⟨k, v⟩ := p
      have hk : k ∉ raisingAttrKeys := h (k, v) (List.mem_cons_self _ _)
      show (if k ∈ raisingAttrKeys then pd
            else update_payment_details (setPaymentAttr pd k v) rest) =
        rest.foldl _ (setPaymentAttr pd k v)
      rw [if_neg hk]
      exact ih (setPaymentAttr pd k v) (fun q hq => h q (List.mem_cons_of_mem _ hq))

/-- Non-raising-patch fold characterisation for the operator update. -/
theorem update_operator_settings_eq_foldl :
    ∀ (kwargs : List (String × CVal)) (os : OperatorSettings),
      (∀ p ∈ kwargs, p.1 ∉ raisingAttrKeys) →
      update_operator_settings os kwargs =
        kwargs.foldl (fun acc p => setOperatorAttr acc p.1 p.2) os := by
  intro kwargs
  induction kwargs with
  | nil => intro os h; rfl
  | cons p rest ih =>
      intro os h
      obtain ⟨k, v⟩ := p
      have hk : k ∉ raisingAttrKeys := h (k, v) (List.mem_cons_self _ _)
      show (if k ∈ raisingAttrKeys then os
            else update_operator_settings (setOperatorAttr os k v) rest) =
        rest.foldl _ (setOperatorAttr os k v)
      rw [if_neg hk]
      exact ih (setOperatorAttr os k v) (fun q hq => h q (List.mem_cons_of_mem _ hq))

/-- A raising key in a payment patch cuts off everything from that key
on: the update equals the update of the prefix before it. -/
theorem update_payment_details_abort :
    ∀ (pre : List (String × CVal)) (pd : PaymentDetails) (k : String)
      (v : CVal) (post : List (String × CVal)), k ∈ raisingAttrKeys →
      update_payment_details pd (pre ++ (k, v) :: post) =
        update_payment_details pd pre := by
  intro pre
  induction pre with
  | nil =>
      intro pd k v post hk
      show (if k ∈ raisingAttrKeys then pd
            else update_payment_details (setPaymentAttr pd k v) post) = pd
      rw [if_pos hk]
  | cons p rest ih =>
      intro pd k v post hk
      obtain ⟨k2, v2⟩ := p
      show (if k2 ∈ raisingAttrKeys then pd
            else update_payment_details (setPaymentAttr pd k2 v2)
              (rest ++ (k, v) :: post)) =
        (if k2 ∈ raisingAttrKeys then pd
            else update_payment_details (setPaymentAttr pd k2 v2) rest)
      by_cases h2 : k2 ∈ raisingAttrKeys
      · simp only [if_pos h2]
      · simp only [if_neg h2]
        exact ih _ k v post hk

/-- Raising-key cutoff for the operator patch. -/
theorem update_operator_settings_abort :
    ∀ (pre : List (String × CVal)) (os : OperatorSettings) (k : String)
      (v : CVal) (post : List (String × CVal)), k ∈ raisingAttrKeys →
      update_operator_settings os (pre ++ (k, v) :: post) =
        update_operator_settings os pre := by
  intro pre
  induction pre with
  | nil =>
      intro os k v post hk
      show (if k ∈ raisingAttrKeys then os
            else update_operator_settings (setOperatorAttr os k v) post) = os
      rw [if_pos hk]
  | cons p rest ih =>
      intro os k v post hk
      obtain ⟨k2, v2⟩ := p
      show (if k2 ∈ raisingAttrKeys then os
            else update_operator_settings (setOperatorAttr os k2 v2)
              (rest ++ (k, v) :: post)) =
        (if k2 ∈ raisingAttrKeys then os
            else update_operator_settings (setOperatorAttr os k2 v2) rest)
      by_cases h2 : k2 ∈ raisingAttrKeys
      · simp only [if_pos h2]
      · simp only [if_neg h2]
        exact ih _ k v post hk

/-- C10 (amended): for every keyword patch free of raising attribute keys
(`__class__`, `__dict__`, `__weakref__`), the update assigns exactly the
keys naming a declared field — each named field ends as its last patched
value, every unnamed field keeps its previous value — and a key naming no
declared field changes nothing; a patch containing a raising key applies
only the entries before its first raising key and silently drops the
rest (the exception is caught inside the method and only logged). -/
theorem C10_settings_patch_frame :
    (∀ (pd : PaymentDetails) (kwargs : List (String × CVal)),
        (∀ p ∈ kwargs, p.1 ∉ raisingAttrKeys) →
        (update_payment_details pd kwargs).card_number =
          lastVal kwargs "card_number" pd.card_number ∧
        (update_payment_details pd kwargs).card_holder =
          lastVal kwargs "card_holder" pd.card_holder ∧
        (update_payment_details pd kwargs).crypto_wallet =
          lastVal kwargs "crypto_wallet" pd.crypto_wallet ∧
        (update_payment_details pd kwargs).crypto_network =
          lastVal kwargs "crypto_network" pd.crypto_network ∧
        (update_payment_details pd kwargs).crypto_coin =
          lastVal kwargs "crypto_coin" pd.crypto_coin) ∧
    (∀ (os : OperatorSettings) (kwargs : List (String × CVal)),
        (∀ p ∈ kwargs, p.1 ∉ raisingAttrKeys) →
        (update_operator_settings os kwargs).operator_link =
          lastVal kwargs "operator_link" os.operator_link ∧
        (update_operator_settings os kwargs).operator_enabled =
          lastVal kwargs "operator_enabled" os.operator_enabled ∧
        (update_operator_settings os kwargs).operator_button_text =
          lastVal kwargs "operator_button_text" os.operator_button_text) ∧
    (∀ (pd : PaymentDetails) (k : String) (v : CVal),
        ¬ (k = "card_number" ∨ k = "card_holder" ∨ k = "crypto_wallet" ∨
           k = "crypto_network" ∨ k = "crypto_coin") →
        k ∉ raisingAttrKeys →
        update_payment_details pd [(k, v)] = pd) ∧
    (∀ (os : OperatorSettings) (k : String) (v : CVal),
        ¬ (k = "operator_link" ∨ k = "operator_enabled" ∨
           k = "operator_button_text") →
        k ∉ raisingAttrKeys →
        update_operator_settings os [(k, v)] = os) ∧
    (∀ (pd : PaymentDetails) (pre post : List (String × CVal)) (k : String)
        (v : CVal), k ∈ raisingAttrKeys →
        update_payment_details pd (pre ++ (k, v) :: post) =
          update_payment_details pd pre) ∧
    (∀ (os : OperatorSettings) (pre post : List (String × CVal)) (k : String)
        (v : CVal), k ∈ raisingAttrKeys →
        update_operator_settings os (pre ++ (k, v) :: post) =
          update_operator_settings os pre) := by
  refine ⟨?_, ?_, ?_, ?_,
    fun pd pre post k v hk => update_payment_details_abort pre pd k v post hk,
    fun os pre post k v hk => update_operator_settings_abort pre os k v post hk⟩
  · intro pd kwargs h
    rw [update_payment_details_eq_foldl kwargs pd h]
    refine ⟨?_, ?_, ?_, ?_, ?_⟩ <;>
      exact foldl_setattr_field setPaymentAttr _ _
        (by intro s k v; unfold setPaymentAttr; split_ifs <;> simp_all) kwargs pd
  · intro os kwargs h
    rw [update_operator_settings_eq_foldl kwargs os h]
    refine ⟨?_, ?_, ?_⟩ <;>
      exact foldl_setattr_field setOperatorAttr _ _
        (by intro s k v; unfold setOperatorAttr; split_ifs <;> simp_all) kwargs os
  · intro pd k v h hk
    push_neg at h
    obtain ⟨h1, h2, h3, h4, h5⟩ := h
    show (if k ∈ raisingAttrKeys then pd
          else update_payment_details (setPaymentAttr pd k v) []) = pd
    rw [if_neg hk]
    show setPaymentAttr pd k v = pd
    unfold setPaymentAttr
    rw [if_neg h1, if_neg h2, if_neg h3, if_neg h4, if_neg h5]
  · intro os k v h hk
    push_neg at h
    obtain ⟨h1, h2, h3⟩ := h
    show (if k ∈ raisingAttrKeys then os
          else update_operator_settings (setOperatorAttr os k v) []) = os
    rw [if_neg hk]
    show setOperatorAttr os k v = os
    unfold setOperatorAttr
    rw [if_neg h1, if_neg h2, if_neg h3]

/-- Counterexample for C10 as stated: in the patch mapping __class__ to x
and card_number to y, the key card_number names an existing field, yet
nothing is assigned — hasattr is true for the inherited __class__
attribute, setattr on it raises, and the single try drops the rest of the
patch, so card_number keeps its default instead of y. -/
theorem C10_dunder_abort_counterexample :
    update_payment_details {} [("__class__", CVal.vstr "x"),
        ("card_number", CVal.vstr "y")] = ({} : PaymentDetails) ∧
    ({} : PaymentDetails).card_number = CVal.vstr "2200 1234 5678 9012" ∧
    CVal.vstr "2200 1234 5678 9012" ≠ CVal.vstr "y" := by
  refine ⟨rfl, rfl, by decide⟩

/-- Witness for C10: a raising-free patch of card_number sets that field
to its last patched value. -/
theorem C10_settings_patch_frame_witness :
    (update_payment_details {} [("card_number", CVal.vstr "42")]).card_number =
      lastVal [("card_number", CVal.vstr "42")] "card_number"
        ({} : PaymentDetails).card_number :=
  (C10_settings_patch_frame.1 {} [("card_number", CVal.vstr "42")] (by decide)).1

end Kalina
